import Mathlib

/-!
Shallow embedding of `fdlimit` (src/lib.rs): the single operation
`raise_fd_limit`, which raises the process's soft open-file-descriptor
resource limit.  The crate compiles one of three platform variants:

* macOS/iOS (BSD-family): read the `kern.maxfilesperproc` sysctl ceiling,
  read the current `(soft, hard)` rlimit pair, set the soft limit to
  `min(ceiling as rlim_t, hard)` and install it;
* Linux: read the current pair and set the soft limit to the hard limit;
* all other targets: a no-op fallback.

The OS is modelled as an oracle (`OSEnv`) supplying the outcome of each of
the three underlying calls (`sysctl`, `getrlimit`, `setrlimit`); an
execution records the returned value and the ordered list of OS calls
performed, so that frame properties (which calls happen, with which
arguments) are provable.  `rlim_t` is `u64`, modelled as `Nat` (all
arithmetic performed by the code is `min`, which cannot overflow);
`c_int` is a signed 32-bit integer, modelled as `Int`, with the Rust cast
`maxfiles as libc::rlim_t` modelled explicitly as reduction mod `2^64`.
-/

namespace Fdlimit

/-- The `libc::rlimit` structure: current (soft) and maximum (hard) limit,
both of C type `rlim_t = u64`. -/
structure rlimit where
  rlim_cur : Nat
  rlim_max : Nat
deriving DecidableEq, Repr

/-- An OS error code (the `errno`-derived `io::Error` produced by
`io::Error::last_os_error()`). -/
structure OSError where
  code : Int
deriving DecidableEq, Repr

/-- The crate's error type: `RaiseLimitError { method: &'static str,
source: io::Error }`. -/
structure RaiseLimitError where
  method : String
  source : OSError
deriving DecidableEq, Repr

/-- The Rust cast `maxfiles as libc::rlim_t`: a signed 32-bit `c_int`
cast to the unsigned 64-bit `rlim_t`, which sign-extends and then
reinterprets, i.e. reduces the integer mod `2^64`
(18446744073709551616). -/
def rlim_t_of_c_int (x : Int) : Nat :=
  (x % 18446744073709551616).toNat

/-- One underlying OS call made during an execution, with the argument
passed where it matters for the claims (the `rlimit` pair handed to
`setrlimit`). -/
inductive OSCall where
  | sysctl
  | getrlimit
  | setrlimit (arg : rlimit)
deriving DecidableEq, Repr

/-- The ambient OS, as seen by one call to `raise_fd_limit`: the outcome
of the `kern.maxfilesperproc` sysctl query (a `c_int` on success), the
outcome of `getrlimit(RLIMIT_NOFILE, ..)`, and for each pair that could
be handed to `setrlimit(RLIMIT_NOFILE, ..)` whether that install fails
(`some` error) or succeeds (`none`). -/
structure OSEnv where
  sysctl_maxfilesperproc : Except OSError Int
  getrlimit_nofile : Except OSError rlimit
  setrlimit_nofile : rlimit → Option OSError

instance {ε α : Type} [DecidableEq ε] [DecidableEq α] : DecidableEq (Except ε α) := fun x y =>
  match x, y with
  | .ok a, .ok b =>
      if h : a = b then .isTrue (by rw [h]) else .isFalse (fun hh => h (Except.ok.inj hh))
  | .ok _, .error _ => .isFalse (fun hh => Except.noConfusion hh)
  | .error _, .ok _ => .isFalse (fun hh => Except.noConfusion hh)
  | .error a, .error b =>
      if h : a = b then .isTrue (by rw [h]) else .isFalse (fun hh => h (Except.error.inj hh))

/-- The observable behaviour of one execution of `raise_fd_limit`: the
returned `Result<Option<u64>, RaiseLimitError>` and the ordered list of
OS calls performed. -/
structure Exec where
  result : Except RaiseLimitError (Option Nat)
  calls : List OSCall
deriving DecidableEq, Repr

/-- `raise_fd_limit` as compiled for `target_os = "macos"` / `"ios"`
(src/lib.rs lines 37–98): query the `kern.maxfilesperproc` sysctl (a
failure returns a `RaiseLimitError` with `method = "libc"`); query the
current rlimit pair via `getrlimit` (failure tagged `"getrlimit"`); set
`rlim_cur` to `min(maxfiles as rlim_t, rlim_max)`; install the pair via
`setrlimit` (failure tagged `"setrlimit"`); return `Ok(Some(rlim_cur))`. -/
def raise_fd_limit_bsd (env : OSEnv) : Exec :=
  match env.sysctl_maxfilesperproc with
  | .error e => { result := .error { method := "libc", source := e }, calls := [.sysctl] }
  | .ok maxfiles =>
    match env.getrlimit_nofile with
    | .error e =>
        { result := .error { method := "getrlimit", source := e }
          calls := [.sysctl, .getrlimit] }
    | .ok rlim =>
        let newRlim : rlimit :=
          { rlim_cur := min (rlim_t_of_c_int maxfiles) rlim.rlim_max
            rlim_max := rlim.rlim_max }
        match env.setrlimit_nofile newRlim with
        | some e =>
            { result := .error { method := "setrlimit", source := e }
              calls := [.sysctl, .getrlimit, .setrlimit newRlim] }
        | none =>
            { result := .ok (some newRlim.rlim_cur)
              calls := [.sysctl, .getrlimit, .setrlimit newRlim] }

/-- `raise_fd_limit` as compiled for `target_os = "linux"` (src/lib.rs
lines 107–136): query the current rlimit pair via `getrlimit` (failure
tagged `"getrlimit"`); set `rlim_cur` to `rlim_max`; install the pair via
`setrlimit` (failure tagged `"setrlimit"`); return `Ok(Some(rlim_cur))`. -/
def raise_fd_limit_linux (env : OSEnv) : Exec :=
  match env.getrlimit_nofile with
  | .error e =>
      { result := .error { method := "getrlimit", source := e }
        calls := [.getrlimit] }
  | .ok rlim =>
      let newRlim : rlimit := { rlim_cur := rlim.rlim_max, rlim_max := rlim.rlim_max }
      match env.setrlimit_nofile newRlim with
      | some e =>
          { result := .error { method := "setrlimit", source := e }
            calls := [.getrlimit, .setrlimit newRlim] }
      | none =>
          { result := .ok (some newRlim.rlim_cur)
            calls := [.getrlimit, .setrlimit newRlim] }

/-- `raise_fd_limit` as compiled for every other target (src/lib.rs lines
138–142): the body is `Ok(None)` and performs no OS call.  Note the
source declares this variant's return type as `Result<u64,
RaiseLimitError>`, which the body `Ok(None)` does not inhabit; the
function's own doc comment says `Returns Ok(None)`, so the body (and doc)
shape `Result<Option<u64>, _>` is modelled here. -/
def raise_fd_limit_other (_env : OSEnv) : Exec :=
  { result := .ok none, calls := [] }

/-- An OS environment in which every underlying call succeeds: the sysctl
ceiling reads `ceil`, `getrlimit` reads `(soft, hard)`, and any
`setrlimit` install succeeds. -/
def envOk (ceil : Int) (soft hard : Nat) : OSEnv :=
  { sysctl_maxfilesperproc := .ok ceil
    getrlimit_nofile := .ok { rlim_cur := soft, rlim_max := hard }
    setrlimit_nofile := fun _ => none }

/-! ### Path lemmas

One lemma per execution path of each platform variant, used by the claim
theorems below. -/

/-- For a `c_int` value that is non-negative (and hence below `2^31`),
the cast to `rlim_t` is the identity. -/
theorem rlim_t_of_c_int_of_nonneg (x : Int) (h0 : 0 ≤ x) (h1 : x < 2147483648) :
    rlim_t_of_c_int x = x.toNat := by
  unfold rlim_t_of_c_int
  omega

/-- For a negative `c_int` value, the cast to `rlim_t` wraps to
`2^64 + x`, which is at least `2^63`. -/
theorem rlim_t_of_c_int_of_neg (x : Int) (h0 : -2147483648 ≤ x) (h1 : x < 0) :
    rlim_t_of_c_int x = (18446744073709551616 + x).toNat ∧
      9223372036854775808 ≤ rlim_t_of_c_int x := by
  unfold rlim_t_of_c_int
  omega

theorem raise_fd_limit_bsd_sysctl_err (env : OSEnv) (e : OSError)
    (hc : env.sysctl_maxfilesperproc = .error e) :
    raise_fd_limit_bsd env =
      { result := .error { method := "libc", source := e }, calls := [.sysctl] } := by
  unfold raise_fd_limit_bsd
  rw [hc]

theorem raise_fd_limit_bsd_getrlimit_err (env : OSEnv) (c : Int) (e : OSError)
    (hc : env.sysctl_maxfilesperproc = .ok c)
    (hg : env.getrlimit_nofile = .error e) :
    raise_fd_limit_bsd env =
      { result := .error { method := "getrlimit", source := e }
        calls := [.sysctl, .getrlimit] } := by
  unfold raise_fd_limit_bsd
  rw [hc, hg]

theorem raise_fd_limit_bsd_setrlimit_err (env : OSEnv) (c : Int) (rl : rlimit) (e : OSError)
    (hc : env.sysctl_maxfilesperproc = .ok c)
    (hg : env.getrlimit_nofile = .ok rl)
    (hs : env.setrlimit_nofile
        { rlim_cur := min (rlim_t_of_c_int c) rl.rlim_max, rlim_max := rl.rlim_max } = some e) :
    raise_fd_limit_bsd env =
      { result := .error { method := "setrlimit", source := e }
        calls := [.sysctl, .getrlimit,
          .setrlimit { rlim_cur := min (rlim_t_of_c_int c) rl.rlim_max
                       rlim_max := rl.rlim_max }] } := by
  unfold raise_fd_limit_bsd
  rw [hc, hg]
  simp only []
  rw [hs]

theorem raise_fd_limit_bsd_ok (env : OSEnv) (c : Int) (rl : rlimit)
    (hc : env.sysctl_maxfilesperproc = .ok c)
    (hg : env.getrlimit_nofile = .ok rl)
    (hs : env.setrlimit_nofile
        { rlim_cur := min (rlim_t_of_c_int c) rl.rlim_max, rlim_max := rl.rlim_max } = none) :
    raise_fd_limit_bsd env =
      { result := .ok (some (min (rlim_t_of_c_int c) rl.rlim_max))
        calls := [.sysctl, .getrlimit,
          .setrlimit { rlim_cur := min (rlim_t_of_c_int c) rl.rlim_max
                       rlim_max := rl.rlim_max }] } := by
  unfold raise_fd_limit_bsd
  rw [hc, hg]
  simp only []
  rw [hs]

theorem raise_fd_limit_linux_getrlimit_err (env : OSEnv) (e : OSError)
    (hg : env.getrlimit_nofile = .error e) :
    raise_fd_limit_linux env =
      { result := .error { method := "getrlimit", source := e }
        calls := [.getrlimit] } := by
  unfold raise_fd_limit_linux
  rw [hg]

theorem raise_fd_limit_linux_setrlimit_err (env : OSEnv) (rl : rlimit) (e : OSError)
    (hg : env.getrlimit_nofile = .ok rl)
    (hs : env.setrlimit_nofile { rlim_cur := rl.rlim_max, rlim_max := rl.rlim_max } = some e) :
    raise_fd_limit_linux env =
      { result := .error { method := "setrlimit", source := e }
        calls := [.getrlimit,
          .setrlimit { rlim_cur := rl.rlim_max, rlim_max := rl.rlim_max }] } := by
  unfold raise_fd_limit_linux
  rw [hg]
  simp only []
  rw [hs]

theorem raise_fd_limit_linux_ok (env : OSEnv) (rl : rlimit)
    (hg : env.getrlimit_nofile = .ok rl)
    (hs : env.setrlimit_nofile { rlim_cur := rl.rlim_max, rlim_max := rl.rlim_max } = none) :
    raise_fd_limit_linux env =
      { result := .ok (some rl.rlim_max)
        calls := [.getrlimit,
          .setrlimit { rlim_cur := rl.rlim_max, rlim_max := rl.rlim_max }] } := by
  unfold raise_fd_limit_linux
  rw [hg]
  simp only []
  rw [hs]

/-! ### Further concrete environments, for witnesses -/

/-- An OS environment whose sysctl query fails with error `e` (the other
calls would succeed). -/
def envSysctlErr (e : OSError) : OSEnv :=
  { sysctl_maxfilesperproc := .error e
    getrlimit_nofile := .ok { rlim_cur := 256, rlim_max := 4096 }
    setrlimit_nofile := fun _ => none }

/-- An OS environment whose `getrlimit` query fails with error `e` (the
sysctl query reads `ceil`, and any install would succeed). -/
def envGetrlimitErr (ceil : Int) (e : OSError) : OSEnv :=
  { sysctl_maxfilesperproc := .ok ceil
    getrlimit_nofile := .error e
    setrlimit_nofile := fun _ => none }

/-- An OS environment whose `setrlimit` install fails with error `e` (the
queries succeed, reading ceiling `ceil` and pair `(soft, hard)`). -/
def envSetrlimitErr (ceil : Int) (soft hard : Nat) (e : OSError) : OSEnv :=
  { sysctl_maxfilesperproc := .ok ceil
    getrlimit_nofile := .ok { rlim_cur := soft, rlim_max := hard }
    setrlimit_nofile := fun _ => some e }

/-! ### Claim theorems -/

/-- Claim C1: on BSD-family platforms (macOS/iOS), a successful call to
`raise_fd_limit` computes the new soft limit as the minimum of the kernel
`kern.maxfilesperproc` ceiling and the current hard limit, installs the
pair `(new_soft, unchanged hard)`, and returns that new soft limit.
(The ceiling, a `c_int`, is taken non-negative here, as in the spec's
data model; its cast to `rlim_t` is then the identity.) -/
theorem claim_C1_bsd_success (env : OSEnv) (c : Int) (rl : rlimit)
    (hc : env.sysctl_maxfilesperproc = .ok c) (h0 : 0 ≤ c) (h1 : c < 2147483648)
    (hg : env.getrlimit_nofile = .ok rl)
    (hs : env.setrlimit_nofile
        { rlim_cur := min c.toNat rl.rlim_max, rlim_max := rl.rlim_max } = none) :
    raise_fd_limit_bsd env =
      { result := .ok (some (min c.toNat rl.rlim_max))
        calls := [.sysctl, .getrlimit,
          .setrlimit { rlim_cur := min c.toNat rl.rlim_max, rlim_max := rl.rlim_max }] } := by
  have hcast := rlim_t_of_c_int_of_nonneg c h0 h1
  have h := raise_fd_limit_bsd_ok env c rl hc hg (by rw [hcast]; exact hs)
  rw [hcast] at h
  exact h

/-- Witness for C1, the spec's end-to-end BSD scenario: ceiling 10240 and
current limits (soft=256, hard=4096) install (4096, 4096) and return
`Ok(Some 4096)`. -/
theorem claim_C1_bsd_success_witness :
    raise_fd_limit_bsd (envOk 10240 256 4096) =
      { result := .ok (some 4096)
        calls := [.sysctl, .getrlimit,
          .setrlimit { rlim_cur := 4096, rlim_max := 4096 }] } := by
  have h := claim_C1_bsd_success (envOk 10240 256 4096) 10240
      { rlim_cur := 256, rlim_max := 4096 } rfl (by decide) (by decide) rfl rfl
  exact h

/-- Claim C2: on Linux, a successful call to `raise_fd_limit` reads the
current `(soft, hard)` pair, sets the new soft limit equal to the hard
limit, installs `(hard, hard)`, and returns the hard limit. -/
theorem claim_C2_linux_success (env : OSEnv) (rl : rlimit)
    (hg : env.getrlimit_nofile = .ok rl)
    (hs : env.setrlimit_nofile { rlim_cur := rl.rlim_max, rlim_max := rl.rlim_max } = none) :
    raise_fd_limit_linux env =
      { result := .ok (some rl.rlim_max)
        calls := [.getrlimit,
          .setrlimit { rlim_cur := rl.rlim_max, rlim_max := rl.rlim_max }] } :=
  raise_fd_limit_linux_ok env rl hg hs

/-- Witness for C2, the spec's end-to-end Linux scenario: current limits
(soft=1024, hard=65536) install (65536, 65536) and return
`Ok(Some 65536)`. -/
theorem claim_C2_linux_success_witness :
    raise_fd_limit_linux (envOk 0 1024 65536) =
      { result := .ok (some 65536)
        calls := [.getrlimit,
          .setrlimit { rlim_cur := 65536, rlim_max := 65536 }] } :=
  claim_C2_linux_success (envOk 0 1024 65536) { rlim_cur := 1024, rlim_max := 65536 } rfl rfl

/-- Claim C3: for every successful call, the returned soft limit `S`
satisfies `S ≤ H` for the hard limit `H` read during the call, and on
BSD-family platforms additionally `S ≤ C` for the (non-negative,
`c_int`-representable) kernel ceiling `C` read during the same call; on
Linux, `S ≤ H`. -/
theorem claim_C3_soft_le_hard_and_ceiling :
    (∀ (env : OSEnv) (c : Int) (rl : rlimit) (s : Nat),
        env.sysctl_maxfilesperproc = .ok c → 0 ≤ c → c < 2147483648 →
        env.getrlimit_nofile = .ok rl →
        (raise_fd_limit_bsd env).result = .ok (some s) →
        s ≤ rl.rlim_max ∧ (s : Int) ≤ c) ∧
    (∀ (env : OSEnv) (rl : rlimit) (s : Nat),
        env.getrlimit_nofile = .ok rl →
        (raise_fd_limit_linux env).result = .ok (some s) →
        s ≤ rl.rlim_max) := by
  constructor
  · intro env c rl s hc h0 h1 hg hres
    cases hset : env.setrlimit_nofile
        { rlim_cur := min (rlim_t_of_c_int c) rl.rlim_max, rlim_max := rl.rlim_max } with
    | some e =>
        rw [raise_fd_limit_bsd_setrlimit_err env c rl e hc hg hset] at hres
        exact absurd hres (by simp)
    | none =>
        rw [raise_fd_limit_bsd_ok env c rl hc hg hset] at hres
        have hs' : min (rlim_t_of_c_int c) rl.rlim_max = s := by
          simpa using hres
        have hcast := rlim_t_of_c_int_of_nonneg c h0 h1
        subst hs'
        constructor
        · exact min_le_right _ _
        · rw [hcast]
          omega
  · intro env rl s hg hres
    cases hset : env.setrlimit_nofile
        { rlim_cur := rl.rlim_max, rlim_max := rl.rlim_max } with
    | some e =>
        rw [raise_fd_limit_linux_setrlimit_err env rl e hg hset] at hres
        exact absurd hres (by simp)
    | none =>
        rw [raise_fd_limit_linux_ok env rl hg hset] at hres
        have hs' : rl.rlim_max = s := by simpa using hres
        omega

/-- Witness for C3: at ceiling 10240 and pair (256, 4096) the BSD variant
returns 4096 with 4096 ≤ 4096 and 4096 ≤ 10240; at pair (1024, 65536)
the Linux variant returns 65536 with 65536 ≤ 65536. -/
theorem claim_C3_witness :
    ((4096 : Nat) ≤ 4096 ∧ ((4096 : Nat) : Int) ≤ 10240) ∧ (65536 : Nat) ≤ 65536 :=
  ⟨claim_C3_soft_le_hard_and_ceiling.1 (envOk 10240 256 4096) 10240
      { rlim_cur := 256, rlim_max := 4096 } 4096 rfl (by decide) (by decide) rfl (by decide),
    claim_C3_soft_le_hard_and_ceiling.2 (envOk 0 1024 65536)
      { rlim_cur := 1024, rlim_max := 65536 } 65536 rfl (by decide)⟩

/-- Claim C4: on platforms with no defined strategy, the fallback body of
`raise_fd_limit` returns the non-error no-limit outcome `Ok(None)` and
performs no OS call at all.  (This is the behaviour of the fallback's
body and doc comment; the fallback's declared return type
`Result<u64, RaiseLimitError>` does not match that body — see the doc
comment on `raise_fd_limit_other`.) -/
theorem claim_C4_other_noop (env : OSEnv) :
    raise_fd_limit_other env = { result := .ok none, calls := [] } :=
  rfl

/-- Claim C5: every failing underlying OS call makes `raise_fd_limit`
return, immediately (no further OS call appears in the trace, so there is
no retry and no fallback), a `RaiseLimitError` whose `method` tag is the
distinct string of the failing step (`"libc"` for the sysctl
configuration query, `"getrlimit"` for the limit-pair query,
`"setrlimit"` for the install call) and whose `source` wraps the OS error
of that call. -/
theorem claim_C5_error_propagation :
    (∀ (env : OSEnv) (e : OSError),
        env.sysctl_maxfilesperproc = .error e →
        raise_fd_limit_bsd env =
          { result := .error { method := "libc", source := e }, calls := [.sysctl] }) ∧
    (∀ (env : OSEnv) (c : Int) (e : OSError),
        env.sysctl_maxfilesperproc = .ok c →
        env.getrlimit_nofile = .error e →
        raise_fd_limit_bsd env =
          { result := .error { method := "getrlimit", source := e }
            calls := [.sysctl, .getrlimit] }) ∧
    (∀ (env : OSEnv) (c : Int) (rl : rlimit) (e : OSError),
        env.sysctl_maxfilesperproc = .ok c →
        env.getrlimit_nofile = .ok rl →
        env.setrlimit_nofile
            { rlim_cur := min (rlim_t_of_c_int c) rl.rlim_max, rlim_max := rl.rlim_max } =
          some e →
        raise_fd_limit_bsd env =
          { result := .error { method := "setrlimit", source := e }
            calls := [.sysctl, .getrlimit,
              .setrlimit { rlim_cur := min (rlim_t_of_c_int c) rl.rlim_max
                           rlim_max := rl.rlim_max }] }) ∧
    (∀ (env : OSEnv) (e : OSError),
        env.getrlimit_nofile = .error e →
        raise_fd_limit_linux env =
          { result := .error { method := "getrlimit", source := e }, calls := [.getrlimit] }) ∧
    (∀ (env : OSEnv) (rl : rlimit) (e : OSError),
        env.getrlimit_nofile = .ok rl →
        env.setrlimit_nofile { rlim_cur := rl.rlim_max, rlim_max := rl.rlim_max } = some e →
        raise_fd_limit_linux env =
          { result := .error { method := "setrlimit", source := e }
            calls := [.getrlimit,
              .setrlimit { rlim_cur := rl.rlim_max, rlim_max := rl.rlim_max }] }) ∧
    (("libc" : String) ≠ "getrlimit" ∧ ("libc" : String) ≠ "setrlimit" ∧
      ("getrlimit" : String) ≠ "setrlimit") :=
  ⟨raise_fd_limit_bsd_sysctl_err,
    raise_fd_limit_bsd_getrlimit_err,
    raise_fd_limit_bsd_setrlimit_err,
    raise_fd_limit_linux_getrlimit_err,
    raise_fd_limit_linux_setrlimit_err,
    by decide, by decide, by decide⟩

/-- Witness for C5: each failure mode evaluated at a concrete
environment with OS error code 13 (EACCES-like). -/
theorem claim_C5_error_propagation_witness :
    raise_fd_limit_bsd (envSysctlErr { code := 13 }) =
      { result := .error { method := "libc", source := { code := 13 } }
        calls := [.sysctl] } ∧
    raise_fd_limit_bsd (envGetrlimitErr 10240 { code := 13 }) =
      { result := .error { method := "getrlimit", source := { code := 13 } }
        calls := [.sysctl, .getrlimit] } ∧
    raise_fd_limit_bsd (envSetrlimitErr 10240 256 4096 { code := 13 }) =
      { result := .error { method := "setrlimit", source := { code := 13 } }
        calls := [.sysctl, .getrlimit,
          .setrlimit { rlim_cur := 4096, rlim_max := 4096 }] } ∧
    raise_fd_limit_linux (envGetrlimitErr 0 { code := 13 }) =
      { result := .error { method := "getrlimit", source := { code := 13 } }
        calls := [.getrlimit] } ∧
    raise_fd_limit_linux (envSetrlimitErr 0 256 4096 { code := 13 }) =
      { result := .error { method := "setrlimit", source := { code := 13 } }
        calls := [.getrlimit, .setrlimit { rlim_cur := 4096, rlim_max := 4096 }] } := by
  refine ⟨claim_C5_error_propagation.1 _ _ rfl,
    claim_C5_error_propagation.2.1 _ 10240 _ rfl rfl,
    ?_,
    claim_C5_error_propagation.2.2.2.1 _ _ rfl,
    claim_C5_error_propagation.2.2.2.2.1 _ { rlim_cur := 256, rlim_max := 4096 } _ rfl rfl⟩
  have h := claim_C5_error_propagation.2.2.1
      (envSetrlimitErr 10240 256 4096 { code := 13 }) 10240
      { rlim_cur := 256, rlim_max := 4096 } { code := 13 } rfl rfl rfl
  exact h

/-- Claim C6: whenever the `getrlimit` query fails, `raise_fd_limit`
returns the query-failure error tagged `"getrlimit"` wrapping that OS
error, and no `setrlimit` install call occurs in the execution. -/
theorem claim_C6_getrlimit_failure_no_install :
    (∀ (env : OSEnv) (c : Int) (e : OSError),
        env.sysctl_maxfilesperproc = .ok c →
        env.getrlimit_nofile = .error e →
        (raise_fd_limit_bsd env).result = .error { method := "getrlimit", source := e } ∧
          ∀ arg : rlimit, OSCall.setrlimit arg ∉ (raise_fd_limit_bsd env).calls) ∧
    (∀ (env : OSEnv) (e : OSError),
        env.getrlimit_nofile = .error e →
        (raise_fd_limit_linux env).result = .error { method := "getrlimit", source := e } ∧
          ∀ arg : rlimit, OSCall.setrlimit arg ∉ (raise_fd_limit_linux env).calls) := by
  constructor
  · intro env c e hc hg
    rw [raise_fd_limit_bsd_getrlimit_err env c e hc hg]
    exact ⟨rfl, by intro arg; simp⟩
  · intro env e hg
    rw [raise_fd_limit_linux_getrlimit_err env e hg]
    exact ⟨rfl, by intro arg; simp⟩

/-- Witness for C6: with a failing `getrlimit` (OS error 22,
EINVAL-like), both platform variants return the `"getrlimit"` error and
never call `setrlimit` — in particular not with the pair (4096, 4096). -/
theorem claim_C6_getrlimit_failure_no_install_witness :
    ((raise_fd_limit_bsd (envGetrlimitErr 10240 { code := 22 })).result =
        .error { method := "getrlimit", source := { code := 22 } } ∧
      OSCall.setrlimit { rlim_cur := 4096, rlim_max := 4096 } ∉
        (raise_fd_limit_bsd (envGetrlimitErr 10240 { code := 22 })).calls) ∧
    ((raise_fd_limit_linux (envGetrlimitErr 0 { code := 22 })).result =
        .error { method := "getrlimit", source := { code := 22 } } ∧
      OSCall.setrlimit { rlim_cur := 4096, rlim_max := 4096 } ∉
        (raise_fd_limit_linux (envGetrlimitErr 0 { code := 22 })).calls) := by
  have h1 := claim_C6_getrlimit_failure_no_install.1
      (envGetrlimitErr 10240 { code := 22 }) 10240 { code := 22 } rfl rfl
  have h2 := claim_C6_getrlimit_failure_no_install.2
      (envGetrlimitErr 0 { code := 22 }) { code := 22 } rfl
  exact ⟨⟨h1.1, h1.2 _⟩, ⟨h2.1, h2.2 _⟩⟩

/-- Claim C7: for two successful calls during which the hard limit (and,
on BSD-family, the sysctl ceiling) is unchanged, the second returned soft
limit is at least the first — repeated calls never lower the soft limit
(the prior soft limits `s1`, `s2` are arbitrary). -/
theorem claim_C7_repeated_calls_monotone :
    (∀ (env1 env2 : OSEnv) (c : Int) (s1 s2 hard S1 S2 : Nat),
        env1.sysctl_maxfilesperproc = .ok c →
        env2.sysctl_maxfilesperproc = .ok c →
        env1.getrlimit_nofile = .ok { rlim_cur := s1, rlim_max := hard } →
        env2.getrlimit_nofile = .ok { rlim_cur := s2, rlim_max := hard } →
        (raise_fd_limit_bsd env1).result = .ok (some S1) →
        (raise_fd_limit_bsd env2).result = .ok (some S2) →
        S1 ≤ S2) ∧
    (∀ (env1 env2 : OSEnv) (s1 s2 hard S1 S2 : Nat),
        env1.getrlimit_nofile = .ok { rlim_cur := s1, rlim_max := hard } →
        env2.getrlimit_nofile = .ok { rlim_cur := s2, rlim_max := hard } →
        (raise_fd_limit_linux env1).result = .ok (some S1) →
        (raise_fd_limit_linux env2).result = .ok (some S2) →
        S1 ≤ S2) := by
  have bsdVal : ∀ (env : OSEnv) (c : Int) (s hard S : Nat),
      env.sysctl_maxfilesperproc = .ok c →
      env.getrlimit_nofile = .ok { rlim_cur := s, rlim_max := hard } →
      (raise_fd_limit_bsd env).result = .ok (some S) →
      S = min (rlim_t_of_c_int c) hard := by
    intro env c s hard S hc hg hres
    cases hset : env.setrlimit_nofile
        { rlim_cur := min (rlim_t_of_c_int c) hard, rlim_max := hard } with
    | some e =>
        rw [raise_fd_limit_bsd_setrlimit_err env c { rlim_cur := s, rlim_max := hard } e
          hc hg hset] at hres
        exact absurd hres (by simp)
    | none =>
        rw [raise_fd_limit_bsd_ok env c { rlim_cur := s, rlim_max := hard } hc hg hset] at hres
        exact (Option.some.inj (Except.ok.inj hres)).symm
  have linuxVal : ∀ (env : OSEnv) (s hard S : Nat),
      env.getrlimit_nofile = .ok { rlim_cur := s, rlim_max := hard } →
      (raise_fd_limit_linux env).result = .ok (some S) →
      S = hard := by
    intro env s hard S hg hres
    cases hset : env.setrlimit_nofile { rlim_cur := hard, rlim_max := hard } with
    | some e =>
        rw [raise_fd_limit_linux_setrlimit_err env { rlim_cur := s, rlim_max := hard } e
          hg hset] at hres
        exact absurd hres (by simp)
    | none =>
        rw [raise_fd_limit_linux_ok env { rlim_cur := s, rlim_max := hard } hg hset] at hres
        exact (Option.some.inj (Except.ok.inj hres)).symm
  constructor
  · intro env1 env2 c s1 s2 hard S1 S2 hc1 hc2 hg1 hg2 hr1 hr2
    rw [bsdVal env1 c s1 hard S1 hc1 hg1 hr1, bsdVal env2 c s2 hard S2 hc2 hg2 hr2]
  · intro env1 env2 s1 s2 hard S1 S2 hg1 hg2 hr1 hr2
    rw [linuxVal env1 s1 hard S1 hg1 hr1, linuxVal env2 s2 hard S2 hg2 hr2]

/-- Witness for C7: a first BSD call from (256, 4096) and a second from
(4096, 4096), both with ceiling 10240, return 4096 and 4096, so
4096 ≤ 4096; likewise on Linux from (1024, 65536) then (65536, 65536). -/
theorem claim_C7_repeated_calls_monotone_witness :
    (4096 : Nat) ≤ 4096 ∧ (65536 : Nat) ≤ 65536 :=
  ⟨claim_C7_repeated_calls_monotone.1 (envOk 10240 256 4096) (envOk 10240 4096 4096)
      10240 256 4096 4096 4096 4096 rfl rfl rfl rfl (by decide) (by decide),
    claim_C7_repeated_calls_monotone.2 (envOk 0 1024 65536) (envOk 0 65536 65536)
      1024 65536 65536 65536 65536 rfl rfl (by decide) (by decide)⟩

/-- Claim C8: `raise_fd_limit` never changes the hard limit: on every
platform and in every execution, any `rlimit` pair handed to `setrlimit`
carries exactly the hard limit read by the preceding `getrlimit` query
(and the fallback variant never calls `setrlimit` at all). -/
theorem claim_C8_hard_limit_preserved :
    (∀ (env : OSEnv) (arg : rlimit),
        OSCall.setrlimit arg ∈ (raise_fd_limit_bsd env).calls →
        ∃ rl : rlimit, env.getrlimit_nofile = .ok rl ∧ arg.rlim_max = rl.rlim_max) ∧
    (∀ (env : OSEnv) (arg : rlimit),
        OSCall.setrlimit arg ∈ (raise_fd_limit_linux env).calls →
        ∃ rl : rlimit, env.getrlimit_nofile = .ok rl ∧ arg.rlim_max = rl.rlim_max) ∧
    (∀ (env : OSEnv) (arg : rlimit),
        OSCall.setrlimit arg ∉ (raise_fd_limit_other env).calls) := by
  refine ⟨?bsd, ?lin, ?other⟩
  · intro env arg hmem
    cases hc : env.sysctl_maxfilesperproc with
    | error e =>
        rw [raise_fd_limit_bsd_sysctl_err env e hc] at hmem
        simp at hmem
    | ok c =>
      cases hg : env.getrlimit_nofile with
      | error e =>
          rw [raise_fd_limit_bsd_getrlimit_err env c e hc hg] at hmem
          simp at hmem
      | ok rl =>
        refine ⟨rl, rfl, ?_⟩
        cases hset : env.setrlimit_nofile
            { rlim_cur := min (rlim_t_of_c_int c) rl.rlim_max, rlim_max := rl.rlim_max } with
        | some e =>
            rw [raise_fd_limit_bsd_setrlimit_err env c rl e hc hg hset] at hmem
            simp at hmem
            rw [hmem]
        | none =>
            rw [raise_fd_limit_bsd_ok env c rl hc hg hset] at hmem
            simp at hmem
            rw [hmem]
  · intro env arg hmem
    cases hg : env.getrlimit_nofile with
    | error e =>
        rw [raise_fd_limit_linux_getrlimit_err env e hg] at hmem
        simp at hmem
    | ok rl =>
      refine ⟨rl, rfl, ?_⟩
      cases hset : env.setrlimit_nofile { rlim_cur := rl.rlim_max, rlim_max := rl.rlim_max } with
      | some e =>
          rw [raise_fd_limit_linux_setrlimit_err env rl e hg hset] at hmem
          simp at hmem
          rw [hmem]
      | none =>
          rw [raise_fd_limit_linux_ok env rl hg hset] at hmem
          simp at hmem
          rw [hmem]
  · intro env arg hmem
    simp [raise_fd_limit_other] at hmem

/-- Witness for C8: in the concrete BSD run with ceiling 10240 and pair
(256, 4096), the (only) `setrlimit` call carries hard limit 4096, equal
to the hard limit read by `getrlimit`. -/
theorem claim_C8_hard_limit_preserved_witness :
    ∃ rl : rlimit, (envOk 10240 256 4096).getrlimit_nofile = .ok rl ∧
      (rlimit.mk 4096 4096).rlim_max = rl.rlim_max :=
  claim_C8_hard_limit_preserved.1 (envOk 10240 256 4096)
    { rlim_cur := 4096, rlim_max := 4096 } (by decide)

/-- A BSD environment whose sysctl query reads the negative `c_int` value
-2 while `getrlimit` reads hard limit `2^64 - 1` (the largest `rlim_t`
value, `RLIM_INFINITY` on several platforms) and every install
succeeds. -/
def envNegCeil : OSEnv := envOk (-2) 256 18446744073709551615

/-- Counterexample to C9 as stated: with sysctl value -2 (negative) and
hard limit `2^64 - 1`, the cast wraps -2 to `2^64 - 2`, and the computed
new soft limit is `min(2^64 - 2, 2^64 - 1) = 2^64 - 2`, which is NOT
equal to the hard limit `2^64 - 1`. -/
theorem claim_C9_counterexample :
    (raise_fd_limit_bsd envNegCeil).result = .ok (some 18446744073709551614) ∧
      (raise_fd_limit_bsd envNegCeil).result ≠ .ok (some 18446744073709551615) := by
  constructor
  · decide
  · decide

/-- Claim C9 (amended): on BSD-family platforms the sysctl ceiling is
read as a signed 32-bit `c_int` and cast to the 64-bit unsigned `rlim_t`,
so every negative sysctl value wraps to at least `2^63`; the computed new
soft limit is `min(wrapped, hard)`, which equals the hard limit whenever
the hard limit is at most `2^64 - 2^31` (in particular for every hard
limit below `2^63`); the ceiling bound is honoured only for non-negative
ceilings representable in 32 bits. -/
theorem claim_C9_negative_ceiling_wraps (env : OSEnv) (c : Int) (rl : rlimit)
    (hc : env.sysctl_maxfilesperproc = .ok c)
    (h0 : -2147483648 ≤ c) (h1 : c < 0)
    (hg : env.getrlimit_nofile = .ok rl)
    (hhard : rl.rlim_max ≤ 18446744071562067968)
    (hs : env.setrlimit_nofile
        { rlim_cur := rl.rlim_max, rlim_max := rl.rlim_max } = none) :
    9223372036854775808 ≤ rlim_t_of_c_int c ∧
      min (rlim_t_of_c_int c) rl.rlim_max = rl.rlim_max ∧
      raise_fd_limit_bsd env =
        { result := .ok (some rl.rlim_max)
          calls := [.sysctl, .getrlimit,
            .setrlimit { rlim_cur := rl.rlim_max, rlim_max := rl.rlim_max }] } := by
  obtain ⟨hwrap, hbig⟩ := rlim_t_of_c_int_of_neg c h0 h1
  have hmin : min (rlim_t_of_c_int c) rl.rlim_max = rl.rlim_max := by
    rw [hwrap]
    omega
  refine ⟨hbig, hmin, ?_⟩
  have h := raise_fd_limit_bsd_ok env c rl hc hg (by rw [hmin]; exact hs)
  rw [hmin] at h
  exact h

/-- Witness for the amended C9: sysctl value -2 with limits (256, 1000):
the wrap is `2^64 - 2 ≥ 2^63`, the minimum is the hard limit 1000, and
the call installs (1000, 1000) and returns `Ok(Some 1000)`. -/
theorem claim_C9_negative_ceiling_wraps_witness :
    9223372036854775808 ≤ rlim_t_of_c_int (-2) ∧
      min (rlim_t_of_c_int (-2)) 1000 = 1000 ∧
      raise_fd_limit_bsd (envOk (-2) 256 1000) =
        { result := .ok (some 1000)
          calls := [.sysctl, .getrlimit,
            .setrlimit { rlim_cur := 1000, rlim_max := 1000 }] } :=
  claim_C9_negative_ceiling_wraps (envOk (-2) 256 1000) (-2)
    { rlim_cur := 256, rlim_max := 1000 } rfl (by decide) (by decide) rfl (by decide) rfl

/-- Claim C10: the installed soft limit of a successful call is
independent of the previously current soft limit — two environments that
agree on the ceiling, the hard limit and the install behaviour yield
identical executions regardless of their prior soft values — and a
successful BSD-family call whose prior soft limit exceeds
`min(ceiling, hard)` returns (and installs) a strictly smaller soft
limit, i.e. it lowers the soft limit. -/
theorem claim_C10_prior_soft_irrelevant :
    (∀ (env1 env2 : OSEnv) (c : Int) (s1 s2 hard : Nat),
        env1.sysctl_maxfilesperproc = .ok c →
        env2.sysctl_maxfilesperproc = .ok c →
        env1.getrlimit_nofile = .ok { rlim_cur := s1, rlim_max := hard } →
        env2.getrlimit_nofile = .ok { rlim_cur := s2, rlim_max := hard } →
        env1.setrlimit_nofile = env2.setrlimit_nofile →
        raise_fd_limit_bsd env1 = raise_fd_limit_bsd env2) ∧
    (∀ (env1 env2 : OSEnv) (s1 s2 hard : Nat),
        env1.getrlimit_nofile = .ok { rlim_cur := s1, rlim_max := hard } →
        env2.getrlimit_nofile = .ok { rlim_cur := s2, rlim_max := hard } →
        env1.setrlimit_nofile = env2.setrlimit_nofile →
        raise_fd_limit_linux env1 = raise_fd_limit_linux env2) ∧
    (∀ (env : OSEnv) (c : Int) (s hard S : Nat),
        env.sysctl_maxfilesperproc = .ok c →
        env.getrlimit_nofile = .ok { rlim_cur := s, rlim_max := hard } →
        (raise_fd_limit_bsd env).result = .ok (some S) →
        min (rlim_t_of_c_int c) hard < s →
        S < s) := by
  refine ⟨?bsd, ?lin, ?low⟩
  · intro env1 env2 c s1 s2 hard hc1 hc2 hg1 hg2 hfun
    unfold raise_fd_limit_bsd
    rw [hc1, hc2, hg1, hg2, hfun]
  · intro env1 env2 s1 s2 hard hg1 hg2 hfun
    unfold raise_fd_limit_linux
    rw [hg1, hg2, hfun]
  · intro env c s hard S hc hg hres hgt
    cases hset : env.setrlimit_nofile
        { rlim_cur := min (rlim_t_of_c_int c) hard, rlim_max := hard } with
    | some e =>
        rw [raise_fd_limit_bsd_setrlimit_err env c { rlim_cur := s, rlim_max := hard } e
          hc hg hset] at hres
        exact absurd hres (by simp)
    | none =>
        rw [raise_fd_limit_bsd_ok env c { rlim_cur := s, rlim_max := hard } hc hg hset] at hres
        have hS : min (rlim_t_of_c_int c) hard = S :=
          Option.some.inj (Except.ok.inj hres)
        omega

/-- Witness for C10: with ceiling 10240 and hard limit 4096, prior soft
limits 256 and 5000 yield the same execution, and from the prior soft
limit 5000 (which exceeds `min(10240, 4096) = 4096`) the successful call
returns 4096 < 5000, lowering the soft limit. -/
theorem claim_C10_prior_soft_irrelevant_witness :
    raise_fd_limit_bsd (envOk 10240 256 4096) = raise_fd_limit_bsd (envOk 10240 5000 4096) ∧
      (4096 : Nat) < 5000 :=
  ⟨claim_C10_prior_soft_irrelevant.1 (envOk 10240 256 4096) (envOk 10240 5000 4096)
      10240 256 5000 4096 rfl rfl rfl rfl rfl,
    claim_C10_prior_soft_irrelevant.2.2 (envOk 10240 5000 4096) 10240 5000 4096 4096
      rfl rfl (by decide) (by decide)⟩

end Fdlimit
